import Mathlib

/-!
Verification development for two front-end source files:

* `front_end/common/SettingRegistration.ts` — a process-wide setting
  registry (ordered descriptor list plus a uniqueness name set).
* `front_end/timeline/TimelineDetailsView.js` — the tabbed details-view
  controller of the performance panel.

The TypeScript/JavaScript code is shallowly embedded: module-level mutable
state becomes an explicit state record threaded through the operations, a
JavaScript `throw` becomes an explicit error value, and external
collaborators that are not part of the two source files (the tab-strip
widget, the i18n string table, the runtime experiment gate, the paint
profiler lookup) are modelled from the specification.
-/

/-! ## Setting registry (`SettingRegistration.ts`) -/

/-- A setting descriptor.  Of the many declarative fields of the TypeScript
interface `SettingRegistration`, the registry operations in the source read
only `settingName` (uniqueness key), and `getRegisteredSettings` reads
`experiment` and `condition` (passed to the external gating predicate
`Root.Runtime.Runtime.isDescriptorEnabled`); the remaining purely
declarative fields (category, order, title, settingType, defaultValue,
tags, options, …) are never inspected by the embedded operations and are
omitted. -/
structure SettingRegistration where
  settingName : String
  experiment : Option String
  condition : Option String
deriving DecidableEq, Repr

/-- The module-level mutable state of `SettingRegistration.ts`:
`let registeredSettings: Array<SettingRegistration> = []` and
`const settingNameSet = new Set<string>()`.  The JavaScript `Set` is
modelled as a duplicate-free list in insertion order. -/
structure RegistryState where
  registeredSettings : List SettingRegistration
  settingNameSet : List String
deriving DecidableEq, Repr

/-- The observable outcome of one registry operation: the state left behind
and, when the operation threw, the error message.  (A JavaScript `throw`
does not roll back mutations already performed, so the state is reported
even for a throwing call.) -/
structure RegOutcome where
  thrown : Option String
  state : RegistryState
deriving DecidableEq, Repr

/-- `Set.prototype.add`: appends the element unless already present. -/
def setAdd (s : List String) (x : String) : List String :=
  if s.contains x then s else s ++ [x]

/-- `registerSettingExtension(registration)` (lines 15–22): throws on a
duplicate `settingName`, otherwise adds the name to the set and pushes the
descriptor onto the list. -/
def registerSettingExtension (st : RegistryState) (registration : SettingRegistration) :
    RegOutcome :=
  let settingName := registration.settingName
  if st.settingNameSet.contains settingName then
    { thrown := some ("Duplicate setting name " ++ settingName), state := st }
  else
    { thrown := none
      state :=
        { registeredSettings := st.registeredSettings ++ [registration]
          settingNameSet := setAdd st.settingNameSet settingName } }

/-- `getRegisteredSettings()` (lines 24–28): filters the registered list by
the external gating predicate `Root.Runtime.Runtime.isDescriptorEnabled`,
which receives the descriptor's `experiment` and `condition` fields.  The
predicate is a parameter here because it lives outside the source file. -/
def getRegisteredSettings (isDescriptorEnabled : Option String → Option String → Bool)
    (st : RegistryState) : List SettingRegistration :=
  st.registeredSettings.filter
    (fun setting => isDescriptorEnabled setting.experiment setting.condition)

/-- The validation loop of `registerSettingExtengionsForTest` (lines 34–41):
starting from a cleared name set, walk the supplied list; on the first
name already seen, stop with the duplicate error (the set keeps the names
added so far), otherwise add the name and continue. -/
def rebuildNameSet : List SettingRegistration → List String → Option String × List String
  | [], acc => (none, acc)
  | setting :: rest, acc =>
    let settingName := setting.settingName
    if acc.contains settingName then
      (some ("Duplicate setting name " ++ settingName), acc)
    else
      rebuildNameSet rest (setAdd acc settingName)

/-- `registerSettingExtengionsForTest(settings, forceReset = false)`
(lines 30–43): when the registry is empty or `forceReset` is set, the
descriptor list is replaced by `settings` and the name set is cleared
*before* the uniqueness validation loop runs; a duplicate throws midway,
leaving the replaced list and the partially rebuilt set in place.
Otherwise the call is a no-op. -/
def registerSettingExtengionsForTest (st : RegistryState)
    (settings : List SettingRegistration) (forceReset : Bool) : RegOutcome :=
  if st.registeredSettings.length = 0 || forceReset then
    let result := rebuildNameSet settings []
    { thrown := result.1
      state := { registeredSettings := settings, settingNameSet := result.2 } }
  else
    { thrown := none, state := st }

/-- The registry's mutating entry points.  (`getRegisteredSettings` reads
the state without changing it and is therefore not an operation here.) -/
inductive RegistryOp
  | register (registration : SettingRegistration)
  | resetForTest (settings : List SettingRegistration) (forceReset : Bool)
deriving DecidableEq, Repr

def applyRegistryOp (st : RegistryState) : RegistryOp → RegOutcome
  | RegistryOp.register r => registerSettingExtension st r
  | RegistryOp.resetForTest settings force => registerSettingExtengionsForTest st settings force

/-- Run a sequence of registry operations from `st`; `none` when some
operation threw (in JavaScript the exception propagates to the caller and
the remaining calls never run). -/
def runRegistryOps : RegistryState → List RegistryOp → Option RegistryState
  | st, [] => some st
  | st, op :: rest =>
    let out := applyRegistryOp st op
    match out.thrown with
    | some _ => none
    | none => runRegistryOps out.state rest

/-- The intended representation invariant of the registry: the descriptor
list has pairwise-distinct names and the name set holds exactly the names
of the listed descriptors. -/
def RegistryInvariant (st : RegistryState) : Prop :=
  (st.registeredSettings.map SettingRegistration.settingName).Nodup ∧
  ∀ n, n ∈ st.settingNameSet ↔
    n ∈ st.registeredSettings.map SettingRegistration.settingName

/-! ## Timeline details view (`TimelineDetailsView.js`)

The controller class `TimelineDetailsView` is embedded as a state record
plus one Lean function per method.  A JavaScript `throw` (in this file
only ever a `TypeError` from dereferencing a null `this._model`) is an
`Except.error`.  External collaborators — the `UI.TabbedPane` tab strip,
the i18n string table, `TimelineUIUtils`, the SDK target manager — are
modelled from the specification and marked as such. -/

/-- The closed set of tab identifiers (the `Tab` enum, lines 371–378). -/
inductive TabId
  | Details
  | EventLog
  | CallTree
  | BottomUp
  | PaintProfiler
  | LayerViewer
deriving DecidableEq, Repr

/-- Whether `this._rangeDetailViews` has a view for the tab: the
constructor (lines 93–103) populates the map for exactly `BottomUp`,
`CallTree` and `EventLog`. -/
def isRangeDetailTab : TabId → Bool
  | TabId.BottomUp => true
  | TabId.CallTree => true
  | TabId.EventLog => true
  | _ => false

/-- A trace event; the controller reads only its `name` (record type). -/
structure TraceEvent where
  name : String
deriving DecidableEq, Repr

/-- Modelled from the spec: the event kind names the controller compares
against (`TimelineModel.TimelineModel.RecordType.Paint` / `.RasterTask`,
defined outside this excerpt). -/
def RecordType.Paint : String := "Paint"

/-- Modelled from the spec: see `RecordType.Paint`. -/
def RecordType.RasterTask : String := "RasterTask"

/-- An opaque layer tree handle carried by a frame. -/
structure LayerTree where
  treeId : Nat
deriving DecidableEq, Repr

/-- A timeline frame; the controller reads only `frame.layerTree`
(nullable). -/
structure TimelineFrame where
  layerTree : Option LayerTree
deriving DecidableEq, Repr

/-- A network request (opaque to the controller). -/
structure NetworkRequest where
  url : String
deriving DecidableEq, Repr

/-- Modelled from the spec: a track exposes its synchronous events (fed to
the external `TimelineUIUtils.statsForTimeRange`); the controller only
tests the track for presence. -/
structure Track where
  syncEvents : List TraceEvent
deriving DecidableEq, Repr

/-- The visible window returned by `model.window()`. -/
structure WindowBounds where
  left : ℚ
  right : ℚ
deriving DecidableEq, Repr

/-- The result of `model.timelineModel().totalBlockingTime()`. -/
structure TotalBlockingTimeInfo where
  time : ℚ
  estimated : Bool
deriving DecidableEq, Repr

/-- Modelled from the spec: the performance model, consumed through its
interface only — window bounds, the blocking-time metric and the minimum
record time.  (`model.timelineModel()` always returns an object, so the
truthiness test on line 139 reduces to the model's presence.) -/
structure PerformanceModel where
  window : WindowBounds
  totalBlockingTime : TotalBlockingTimeInfo
  minimumRecordTime : ℚ
deriving DecidableEq, Repr

/-- `TimelineSelection` (from `TimelinePanel.js`), modelled from the spec
as the tagged union over the four selection kinds; `range` carries the
start/end pair and `TimelineSelection.fromRange` is the `range`
constructor. -/
inductive TimelineSelection
  | traceEvent (event : TraceEvent)
  | frame (frame : TimelineFrame)
  | networkRequest (request : NetworkRequest)
  | range (startTime endTime : ℚ)
deriving DecidableEq, Repr

/-- What the default details pane currently shows.  The DOM nodes built by
the external `TimelineUIUtils` are abstracted to the kind of content and
the data it was built from. -/
inductive DisplayedContent
  | blank
  | emptyDiv
  | rangeStats (startTime endTime : ℚ)
  | traceEventDetails (event : TraceEvent)
  | frameDetails (frame : TimelineFrame)
  | networkRequestDetails (request : NetworkRequest)
deriving DecidableEq, Repr

/-- A lazily created `TimelineLayersView`; instances are distinguished by
a creation stamp so that "reuses the same instance" is expressible. -/
structure LayersView where
  viewId : Nat
deriving DecidableEq, Repr

/-- A lazily created `TimelinePaintProfilerView` (see `LayersView`). -/
structure PaintProfilerView where
  viewId : Nat
deriving DecidableEq, Repr

/-- An SDK paint-profiler model instance (opaque). -/
structure PaintProfilerModel where
  modelId : Nat
deriving DecidableEq, Repr

/-- Modelled from the spec: the ambient profiling environment read by
`_showEventInPaintProfiler` — the first paint-profiler model of the SDK
target manager (absent when no such model exists), and whether
`paintProfilerView.setEvent(model, event)` finds profile data for an
event. -/
structure PaintProfilerEnv where
  paintProfilerModel : Option PaintProfilerModel
  hasProfileData : TraceEvent → Bool

/-- An asynchronous detail build scheduled by `setSelection` whose `.then`
continuation has not run yet (the controller does not cancel them). -/
inductive PendingTask
  | traceEventDetails (event : TraceEvent)
  | networkRequestDetails (request : NetworkRequest)
deriving DecidableEq, Repr

/-- Modelled from the spec: the `UI.TabbedPane` tab strip, reduced to the
ordered list of open tab ids and the currently selected tab. -/
structure TabbedPane where
  tabs : List TabId
  selectedTabId : Option TabId
deriving DecidableEq, Repr

/-- Modelled from the spec: `tabbedPane.hasTab(id)`. -/
def TabbedPane.hasTab (p : TabbedPane) (id : TabId) : Bool :=
  p.tabs.contains id

/-- Modelled from the spec: `tabbedPane.appendTab(id, …)` appends the tab
at the end of the strip without selecting it. -/
def TabbedPane.appendTab (p : TabbedPane) (id : TabId) : TabbedPane :=
  { p with tabs := p.tabs ++ [id] }

/-- Modelled from the spec: `tabbedPane.selectTab(id)` selects the tab
when it is open, otherwise does nothing. -/
def TabbedPane.selectTab (p : TabbedPane) (id : TabId) : TabbedPane :=
  if p.tabs.contains id then { p with selectedTabId := some id } else p

/-- Modelled from the spec: `tabbedPane.closeTab(id)` removes the tab; if
it was selected, the selection falls back to the first remaining tab. -/
def TabbedPane.closeTab (p : TabbedPane) (id : TabId) : TabbedPane :=
  let tabs := p.tabs.filter (fun t => !(t == id))
  { tabs := tabs
    selectedTabId :=
      if p.selectedTabId = some id then tabs.head? else p.selectedTabId }

/-- Modelled from the spec: `tabbedPane.closeTabs(ids)` closes each id in
turn. -/
def TabbedPane.closeTabs (p : TabbedPane) (ids : List TabId) : TabbedPane :=
  ids.foldl TabbedPane.closeTab p

/-- Modelled from the spec: `tabbedPane.otherTabs(exceptId)` lists the
open tabs other than `exceptId`. -/
def TabbedPane.otherTabs (p : TabbedPane) (exceptId : TabId) : List TabId :=
  p.tabs.filter (fun t => !(t == exceptId))

/-- `UIStrings.estimated` (line 40). -/
def UIStrings.estimated : String := "estimated"

/-- Modelled from the spec: the i18n placeholder substitution applied to
`UIStrings.totalBlockingTimeSmss` = `Total blocking time: \x7bPH1\x7dms\x7bPH2\x7d`
(line 46). -/
def totalBlockingTimeMessage (ph1 ph2 : String) : String :=
  "Total blocking time: " ++ ph1 ++ "ms" ++ ph2

/-- Render a count of hundredths as a decimal numeral with exactly two
fractional digits. -/
def toFixed2Nat (n : Nat) : String :=
  Nat.repr (n / 100) ++ "." ++
    (if n % 100 < 10 then "0" ++ Nat.repr (n % 100) else Nat.repr (n % 100))

/-- The integer count of hundredths nearest to `x` (ties resolved to the
larger integer), i.e. `⌊100 x + 1 / 2⌋` — see `jsRoundHundredths_eq_floor`
below.  Written on the numerator and denominator so that it evaluates by
kernel reduction. -/
def jsRoundHundredths (x : ℚ) : ℤ := (200 * x.num + x.den) / (2 * x.den)

/-- Modelled from the spec: JavaScript `x.toFixed(2)` per ECMA-262 — for
non-negative `x`, the integer count of hundredths closest to `x * 100`,
ties resolved to the larger integer; a negative `x` is formatted as the
sign followed by the formatting of `-x`. -/
def toFixed2 (x : ℚ) : String :=
  if x < 0 then "-" ++ toFixed2Nat (jsRoundHundredths (-x)).toNat
  else toFixed2Nat (jsRoundHundredths x).toNat

/-- The state of a `TimelineDetailsView` instance.  DOM-only members (the
linkifier, the toolbar element, widget elements) carry no modelled state;
the footer message and the arguments of `view.updateContents(…)` calls
are recorded as observations. -/
structure TimelineDetailsView where
  tabbedPane : TabbedPane
  preferredTabId : Option TabId
  model : Option PerformanceModel
  track : Option Track
  selection : Option TimelineSelection
  lazyLayersView : Option LayersView
  lazyPaintProfilerView : Option PaintProfilerView
  content : DisplayedContent
  footer : Option String
  updateCalls : List (TabId × TimelineSelection)
  nextViewId : Nat
deriving DecidableEq, Repr

namespace TimelineDetailsView

/-- Reading `this._model` where the code dereferences it: a null model
raises a `TypeError`. -/
def getModel (v : TimelineDetailsView) : Except String PerformanceModel :=
  match v.model with
  | some m => Except.ok m
  | none => Except.error "TypeError: this._model is null"

/-- The state after the constructor (lines 72–112): the four permanent
tabs are appended (`Details` plus the three range-detail tabs), the
`Details` tab ends up selected and preferred, and no model, track or
selection is bound. -/
def initialView : TimelineDetailsView :=
  { tabbedPane :=
      { tabs := [TabId.Details, TabId.BottomUp, TabId.CallTree, TabId.EventLog]
        selectedTabId := some TabId.Details }
    preferredTabId := some TabId.Details
    model := none
    track := none
    selection := none
    lazyLayersView := none
    lazyPaintProfilerView := none
    content := DisplayedContent.blank
    footer := none
    updateCalls := []
    nextViewId := 0 }

/-- `_setContent(node)` (lines 160–169): close every open tab other than
`Details` that has no range-detail view, then replace the body of the
default details pane by `node`. -/
def _setContent (v : TimelineDetailsView) (node : DisplayedContent) : TimelineDetailsView :=
  let allTabs := v.tabbedPane.otherTabs TabId.Details
  let toClose := allTabs.filter (fun t => !(isRangeDetailTab t))
  { v with tabbedPane := toClose.foldl TabbedPane.closeTab v.tabbedPane, content := node }

/-- `_updateContents()` (lines 171–177): look up the range-detail view of
the selected tab; when one exists, call its `updateContents` with the
current selection, or with a range selection over the model's window when
no selection is set (`this._model.window()` throws on a null model). -/
def _updateContents (v : TimelineDetailsView) : Except String TimelineDetailsView :=
  match v.tabbedPane.selectedTabId with
  | none => Except.ok v
  | some tid =>
    if isRangeDetailTab tid then
      match getModel v with
      | Except.error e => Except.error e
      | Except.ok m =>
        let sel :=
          match v.selection with
          | some s => s
          | none => TimelineSelection.range m.window.left m.window.right
        Except.ok { v with updateCalls := v.updateCalls ++ [(tid, sel)] }
    else Except.ok v

/-- `_appendTab(id, tabTitle, view, isCloseable)` (lines 185–190): append
the tab and select it unless the preferred tab is the one currently
selected. -/
def _appendTab (v : TimelineDetailsView) (id : TabId) : TimelineDetailsView :=
  let v := { v with tabbedPane := v.tabbedPane.appendTab id }
  if v.preferredTabId ≠ v.tabbedPane.selectedTabId then
    { v with tabbedPane := v.tabbedPane.selectTab id }
  else v

/-- `setPreferredTab(tabId)` (lines 202–204). -/
def setPreferredTab (v : TimelineDetailsView) (tabId : TabId) : TimelineDetailsView :=
  { v with preferredTabId := some tabId }

/-- `_updateSelectedRangeStats(startTime, endTime)` (lines 351–365):
nothing happens without a model and a track; otherwise the externally
computed statistics for `[startTime, endTime]` (pie chart and range label)
become the displayed content. -/
def _updateSelectedRangeStats (v : TimelineDetailsView) (startTime endTime : ℚ) :
    TimelineDetailsView :=
  match v.model, v.track with
  | some _, some _ => _setContent v (DisplayedContent.rangeStats startTime endTime)
  | _, _ => v

/-- `_updateContentsFromWindow()` (lines 215–223): with no model the pane
shows an empty fragment; otherwise the stats for the model's window are
rendered and `_updateContents` runs. -/
def _updateContentsFromWindow (v : TimelineDetailsView) : Except String TimelineDetailsView :=
  match v.model with
  | none => Except.ok (_setContent v DisplayedContent.emptyDiv)
  | some m => _updateContents (_updateSelectedRangeStats v m.window.left m.window.right)

/-- `_layersView()` (lines 284–291): return the cached view, or construct
one (reading `this._model.timelineModel()`) and cache it. -/
def _layersView (v : TimelineDetailsView) :
    Except String (LayersView × TimelineDetailsView) :=
  match v.lazyLayersView with
  | some lv => Except.ok (lv, v)
  | none =>
    match getModel v with
    | Except.error e => Except.error e
    | Except.ok _ =>
      let lv : LayersView := { viewId := v.nextViewId }
      Except.ok (lv, { v with lazyLayersView := some lv, nextViewId := v.nextViewId + 1 })

/-- `_paintProfilerView()` (lines 296–302): return the cached view, or
construct one (reading `this._model.frameModel()`) and cache it. -/
def _paintProfilerView (v : TimelineDetailsView) :
    Except String (PaintProfilerView × TimelineDetailsView) :=
  match v.lazyPaintProfilerView with
  | some pv => Except.ok (pv, v)
  | none =>
    match getModel v with
    | Except.error e => Except.error e
    | Except.ok _ =>
      let pv : PaintProfilerView := { viewId := v.nextViewId }
      Except.ok (pv, { v with lazyPaintProfilerView := some pv, nextViewId := v.nextViewId + 1 })

/-- `_showEventInPaintProfiler(event)` (lines 331–345): without a
paint-profiler model instance the method returns at once; with one, the
lazy view is fetched, the event is fed to it, and — only when profile
data exists and the tab is not yet open — the `PaintProfiler` tab is
appended. -/
def _showEventInPaintProfiler (env : PaintProfilerEnv) (v : TimelineDetailsView)
    (event : TraceEvent) : Except String TimelineDetailsView :=
  match env.paintProfilerModel with
  | none => Except.ok v
  | some _ =>
    match _paintProfilerView v with
    | Except.error e => Except.error e
    | Except.ok (_, v) =>
      let hasProfileData := env.hasProfileData event
      if !hasProfileData then Except.ok v
      else if v.tabbedPane.hasTab TabId.PaintProfiler then Except.ok v
      else Except.ok (_appendTab v TabId.PaintProfiler)

/-- `_appendDetailsTabsForTraceEventAndShowDetails(event, content)`
(lines 320–326): show the built content; for `Paint` and `RasterTask`
events additionally try the paint profiler. -/
def _appendDetailsTabsForTraceEventAndShowDetails (env : PaintProfilerEnv)
    (v : TimelineDetailsView) (event : TraceEvent) : Except String TimelineDetailsView :=
  let v := _setContent v (DisplayedContent.traceEventDetails event)
  if event.name == RecordType.Paint || event.name == RecordType.RasterTask then
    _showEventInPaintProfiler env v event
  else Except.ok v

/-- `setSelection(selection)` (lines 228–268).  The two asynchronous
detail builds (trace event, network request) are returned as pending
tasks: their `.then` continuations run after this call returns, so only
the synchronous part of the dispatch is performed here.  The final
`_updateContents()` always runs. -/
def setSelection (v : TimelineDetailsView) (selection : Option TimelineSelection) :
    Except String (TimelineDetailsView × List PendingTask) :=
  -- this._detailsLinkifier.reset(): external DOM helper, no modelled state
  let v := { v with selection := selection }
  match selection with
  | none =>
    match _updateContentsFromWindow v with
    | Except.error e => Except.error e
    | Except.ok v => Except.ok (v, [])
  | some (TimelineSelection.traceEvent event) =>
    -- buildTraceEventDetails(event, this._model.timelineModel(), …).then(…)
    match getModel v with
    | Except.error e => Except.error e
    | Except.ok _ =>
      match _updateContents v with
      | Except.error e => Except.error e
      | Except.ok v => Except.ok (v, [PendingTask.traceEventDetails event])
  | some (TimelineSelection.frame frame) =>
    -- const filmStripFrame = this._model.filmStripModelFrame(frame)
    match getModel v with
    | Except.error e => Except.error e
    | Except.ok _ =>
      let v := _setContent v (DisplayedContent.frameDetails frame)
      let next : Except String TimelineDetailsView :=
        match frame.layerTree with
        | some _ =>
          match _layersView v with
          | Except.error e => Except.error e
          | Except.ok (_, v) =>
            -- layersView.showLayerTree(frame.layerTree): external rendering
            if v.tabbedPane.hasTab TabId.LayerViewer then Except.ok v
            else Except.ok (_appendTab v TabId.LayerViewer)
        | none => Except.ok v
      match next with
      | Except.error e => Except.error e
      | Except.ok v =>
        match _updateContents v with
        | Except.error e => Except.error e
        | Except.ok v => Except.ok (v, [])
  | some (TimelineSelection.networkRequest request) =>
    -- buildNetworkRequestDetails(request, this._model.timelineModel(), …).then(…)
    match getModel v with
    | Except.error e => Except.error e
    | Except.ok _ =>
      match _updateContents v with
      | Except.error e => Except.error e
      | Except.ok v => Except.ok (v, [PendingTask.networkRequestDetails request])
  | some (TimelineSelection.range startTime endTime) =>
    let v := _updateSelectedRangeStats v startTime endTime
    match _updateContents v with
    | Except.error e => Except.error e
    | Except.ok v => Except.ok (v, [])

/-- The `.then` continuation of a pending detail build: for a trace event
`_appendDetailsTabsForTraceEventAndShowDetails`, for a network request
`this._setContent.bind(this)`. -/
def runPendingTask (env : PaintProfilerEnv) (v : TimelineDetailsView) :
    PendingTask → Except String TimelineDetailsView
  | PendingTask.traceEventDetails event =>
    _appendDetailsTabsForTraceEventAndShowDetails env v event
  | PendingTask.networkRequestDetails request =>
    Except.ok (_setContent v (DisplayedContent.networkRequestDetails request))

/-- `_tabSelected(event)` (lines 273–279): only user gestures update the
preferred tab and refresh. -/
def _tabSelected (v : TimelineDetailsView) (tabId : TabId) (isUserGesture : Bool) :
    Except String TimelineDetailsView :=
  if !isUserGesture then Except.ok v
  else _updateContents (setPreferredTab v tabId)

/-- `setModel(model, track)` (lines 118–155): rebind the window-change
subscription (external), store the model and track, close the two
on-demand tabs, hand the model to the three range-detail views
(external), drop both lazy view caches, clear the selection, and rebuild
the footer: empty without a model, otherwise the total-blocking-time
message with the `(estimated)` suffix when the metric is flagged as an
estimate. -/
def setModel (v : TimelineDetailsView) (model : Option PerformanceModel)
    (track : Option Track) : Except String TimelineDetailsView :=
  let v := { v with model := model, track := track }
  let v := { v with tabbedPane :=
    v.tabbedPane.closeTabs [TabId.PaintProfiler, TabId.LayerViewer] }
  let v := { v with lazyPaintProfilerView := none, lazyLayersView := none }
  match setSelection v none with
  | Except.error e => Except.error e
  | Except.ok (v, _) =>
    let v := { v with footer := none }  -- removeToolbarItems()
    match model with
    | some m =>
      let isEstimate :=
        if m.totalBlockingTime.estimated then " (" ++ UIStrings.estimated ++ ")" else ""
      let message := totalBlockingTimeMessage (toFixed2 m.totalBlockingTime.time) isEstimate
      Except.ok { v with footer := some message }
    | none => Except.ok v

end TimelineDetailsView


/-! ## Theorems: setting registry -/

/-- When the validation loop finishes without an error, the supplied names
were pairwise distinct and fresh for the accumulator, and the accumulator
was extended by exactly those names. -/
theorem rebuildNameSet_none :
    ∀ (l : List SettingRegistration) (acc : List String),
      (rebuildNameSet l acc).1 = none →
      (l.map SettingRegistration.settingName).Nodup ∧
      (rebuildNameSet l acc).2 = acc ++ l.map SettingRegistration.settingName ∧
      ∀ n ∈ l.map SettingRegistration.settingName, n ∉ acc := by
  intro l
  induction l with
  | nil => intro acc _; simp [rebuildNameSet]
  | cons s rest ih =>
    intro acc h
    by_cases hc : s.settingName ∈ acc
    · simp [rebuildNameSet, hc] at h
    · have hrec : rebuildNameSet (s :: rest) acc
          = rebuildNameSet rest (acc ++ [s.settingName]) := by
        simp [rebuildNameSet, hc, setAdd]
      rw [hrec] at h ⊢
      obtain ⟨hnodup, hacc, hfresh⟩ := ih (acc ++ [s.settingName]) h
      have hne : ∀ n ∈ rest.map SettingRegistration.settingName,
          n ∉ acc ∧ n ≠ s.settingName := by
        intro n hn
        have hmem := hfresh n hn
        simp only [List.mem_append, List.mem_singleton] at hmem
        push_neg at hmem
        exact hmem
      refine ⟨?_, ?_, ?_⟩
      · rw [List.map_cons, List.nodup_cons]
        exact ⟨fun hmem => (hne _ hmem).2 rfl, hnodup⟩
      · rw [hacc, List.map_cons, List.append_assoc]
        rfl
      · intro n hn
        rw [List.map_cons] at hn
        rcases List.mem_cons.mp hn with h1 | h1
        · rw [h1]; exact hc
        · exact (hne n h1).1

/-- The validation loop on pairwise-distinct fresh names succeeds and
appends exactly those names to the accumulator. -/
theorem rebuildNameSet_nodup :
    ∀ (l : List SettingRegistration) (acc : List String),
      (l.map SettingRegistration.settingName).Nodup →
      (∀ n ∈ l.map SettingRegistration.settingName, n ∉ acc) →
      rebuildNameSet l acc = (none, acc ++ l.map SettingRegistration.settingName) := by
  intro l
  induction l with
  | nil => intro acc _ _; simp [rebuildNameSet]
  | cons s rest ih =>
    intro acc hnodup hfresh
    have hc : s.settingName ∉ acc := hfresh s.settingName (by simp)
    have hrec : rebuildNameSet (s :: rest) acc
        = rebuildNameSet rest (acc ++ [s.settingName]) := by
      simp [rebuildNameSet, hc, setAdd]
    rw [List.map_cons, List.nodup_cons] at hnodup
    have hfresh' : ∀ n ∈ rest.map SettingRegistration.settingName,
        n ∉ acc ++ [s.settingName] := by
      intro n hn
      simp only [List.mem_append, List.mem_singleton]
      push_neg
      refine ⟨hfresh n (by simp [hn]), ?_⟩
      intro hexact
      exact hnodup.1 (hexact ▸ hn)
    rw [hrec, ih (acc ++ [s.settingName]) hnodup.2 hfresh']
    simp

/-- C1: for every registry state, registering a descriptor whose name is
already in the name set throws a duplicate-name error and leaves the state
(descriptor list and name set) exactly as it was; registering a fresh name
throws nothing, appends the descriptor to the end of the list and adds its
name to the set. -/
theorem registerSettingExtension_spec (st : RegistryState) (r : SettingRegistration) :
    (r.settingName ∈ st.settingNameSet →
      (registerSettingExtension st r).thrown.isSome = true ∧
      (registerSettingExtension st r).state = st) ∧
    (r.settingName ∉ st.settingNameSet →
      (registerSettingExtension st r).thrown = none ∧
      (registerSettingExtension st r).state.registeredSettings
        = st.registeredSettings ++ [r] ∧
      (registerSettingExtension st r).state.settingNameSet
        = st.settingNameSet ++ [r.settingName]) := by
  constructor
  · intro h
    simp [registerSettingExtension, h]
  · intro h
    simp [registerSettingExtension, setAdd, h]

/-- Witness for C1: both branches at concrete registries. -/
theorem registerSettingExtension_spec_witness :
    ((registerSettingExtension ⟨[], ["a"]⟩ ⟨"a", none, none⟩).thrown.isSome = true ∧
      (registerSettingExtension ⟨[], ["a"]⟩ ⟨"a", none, none⟩).state = ⟨[], ["a"]⟩) ∧
    ((registerSettingExtension ⟨[], []⟩ ⟨"a", none, none⟩).thrown = none ∧
      (registerSettingExtension ⟨[], []⟩ ⟨"a", none, none⟩).state.registeredSettings
        = [] ++ [⟨"a", none, none⟩] ∧
      (registerSettingExtension ⟨[], []⟩ ⟨"a", none, none⟩).state.settingNameSet
        = [] ++ ["a"]) :=
  ⟨(registerSettingExtension_spec ⟨[], ["a"]⟩ ⟨"a", none, none⟩).1 (by decide),
    (registerSettingExtension_spec ⟨[], []⟩ ⟨"a", none, none⟩).2 (by decide)⟩

/-- C2 counterexample: rebuilding an empty registry from a list with a
duplicated name throws, yet the registry does *not* stay unchanged — the
descriptor list was already replaced by the supplied list when the
duplicate was detected. -/
theorem registerSettingExtengionsForTest_unchanged_counterexample :
    (registerSettingExtengionsForTest ⟨[], []⟩
        [⟨"a", none, none⟩, ⟨"a", none, none⟩] false).thrown.isSome = true ∧
    (registerSettingExtengionsForTest ⟨[], []⟩
        [⟨"a", none, none⟩, ⟨"a", none, none⟩] false).state ≠ ⟨[], []⟩ := by
  decide

/-- C2 (amended): when the rebuild path runs (registry empty or force set)
on a list containing two descriptors with the same name, the call throws a
duplicate-name error, but it does not leave the registry unchanged: the
descriptor list is replaced by the supplied list and the name set holds
exactly the names the validation loop added before hitting the
duplicate. -/
theorem registerSettingExtengionsForTest_dup_spec (st : RegistryState)
    (settings : List SettingRegistration) (forceReset : Bool)
    (hgo : st.registeredSettings = [] ∨ forceReset = true)
    (hdup : ¬ (settings.map SettingRegistration.settingName).Nodup) :
    (registerSettingExtengionsForTest st settings forceReset).thrown.isSome = true ∧
    (registerSettingExtengionsForTest st settings forceReset).state.registeredSettings
      = settings ∧
    (registerSettingExtengionsForTest st settings forceReset).state.settingNameSet
      = (rebuildNameSet settings []).2 := by
  have hsome : (rebuildNameSet settings []).1.isSome = true := by
    cases herr : (rebuildNameSet settings []).1 with
    | some e => rfl
    | none => exact absurd (rebuildNameSet_none settings [] herr).1 hdup
  unfold registerSettingExtengionsForTest
  split
  · exact ⟨hsome, rfl, rfl⟩
  · rename_i hfalse
    exfalso
    apply hfalse
    rcases hgo with h | h <;> simp [h]

/-- Witness for C2 (amended) at a concrete duplicate rebuild. -/
theorem registerSettingExtengionsForTest_dup_spec_witness :
    (registerSettingExtengionsForTest ⟨[], []⟩
        [⟨"a", none, none⟩, ⟨"a", none, none⟩] false).thrown.isSome = true ∧
    (registerSettingExtengionsForTest ⟨[], []⟩
        [⟨"a", none, none⟩, ⟨"a", none, none⟩] false).state.registeredSettings
      = [⟨"a", none, none⟩, ⟨"a", none, none⟩] ∧
    (registerSettingExtengionsForTest ⟨[], []⟩
        [⟨"a", none, none⟩, ⟨"a", none, none⟩] false).state.settingNameSet
      = (rebuildNameSet [⟨"a", none, none⟩, ⟨"a", none, none⟩] []).2 :=
  registerSettingExtengionsForTest_dup_spec ⟨[], []⟩
    [⟨"a", none, none⟩, ⟨"a", none, none⟩] false (Or.inl rfl) (by decide)

/-- A sequence of `register` calls with pairwise-distinct names that are
all fresh for the starting state succeeds and appends the descriptors and
their names in order. -/
theorem runRegister_all :
    ∀ (l : List SettingRegistration) (st : RegistryState),
      (l.map SettingRegistration.settingName).Nodup →
      (∀ n ∈ l.map SettingRegistration.settingName, n ∉ st.settingNameSet) →
      runRegistryOps st (l.map RegistryOp.register) =
        some ⟨st.registeredSettings ++ l,
          st.settingNameSet ++ l.map SettingRegistration.settingName⟩ := by
  intro l
  induction l with
  | nil =>
    intro st _ _
    simp [runRegistryOps]
  | cons r rest ih =>
    intro st hnodup hfresh
    have hc : r.settingName ∉ st.settingNameSet := hfresh r.settingName (by simp)
    have hstep : registerSettingExtension st r =
        { thrown := none,
          state := ⟨st.registeredSettings ++ [r], st.settingNameSet ++ [r.settingName]⟩ } := by
      simp [registerSettingExtension, setAdd, hc]
    rw [List.map_cons, List.nodup_cons] at hnodup
    have hfresh' : ∀ n ∈ rest.map SettingRegistration.settingName,
        n ∉ st.settingNameSet ++ [r.settingName] := by
      intro n hn
      simp only [List.mem_append, List.mem_singleton]
      push_neg
      refine ⟨hfresh n (by simp [hn]), ?_⟩
      intro hexact
      exact hnodup.1 (hexact ▸ hn)
    rw [List.map_cons]
    simp only [runRegistryOps, applyRegistryOp, hstep]
    rw [ih ⟨st.registeredSettings ++ [r], st.settingNameSet ++ [r.settingName]⟩
      hnodup.2 hfresh']
    simp

/-- C4: with pairwise-distinct names, the `register` calls all succeed,
and `getRegisteredSettings` returns exactly the gating-enabled
sub-sequence of the registered descriptors in registration order — with
an always-true gate, all of them in registration order. -/
theorem getRegisteredSettings_spec (l : List SettingRegistration)
    (isDescriptorEnabled : Option String → Option String → Bool)
    (h : (l.map SettingRegistration.settingName).Nodup) :
    runRegistryOps ⟨[], []⟩ (l.map RegistryOp.register) =
      some ⟨l, l.map SettingRegistration.settingName⟩ ∧
    getRegisteredSettings isDescriptorEnabled ⟨l, l.map SettingRegistration.settingName⟩ =
      l.filter (fun s => isDescriptorEnabled s.experiment s.condition) ∧
    ((∀ e c, isDescriptorEnabled e c = true) →
      getRegisteredSettings isDescriptorEnabled ⟨l, l.map SettingRegistration.settingName⟩
        = l) := by
  refine ⟨?_, rfl, ?_⟩
  · have hall := runRegister_all l ⟨[], []⟩ h (by intro n _ hmem; simp at hmem)
    simpa using hall
  · intro htrue
    unfold getRegisteredSettings
    apply List.filter_eq_self.mpr
    intro a _
    exact htrue a.experiment a.condition

/-- Witness for C4 at a two-descriptor registration sequence with the
always-true gate. -/
theorem getRegisteredSettings_spec_witness :
    runRegistryOps ⟨[], []⟩
        ([⟨"a", none, none⟩, ⟨"b", none, none⟩].map RegistryOp.register) =
      some ⟨[⟨"a", none, none⟩, ⟨"b", none, none⟩], ["a", "b"]⟩ ∧
    getRegisteredSettings (fun _ _ => true)
        ⟨[⟨"a", none, none⟩, ⟨"b", none, none⟩], ["a", "b"]⟩ =
      [⟨"a", none, none⟩, ⟨"b", none, none⟩] := by
  have h := getRegisteredSettings_spec [⟨"a", none, none⟩, ⟨"b", none, none⟩]
    (fun _ _ => true) (by decide)
  exact ⟨h.1, h.2.2 (fun _ _ => rfl)⟩

/-- C5 counterexample: with `force` set, rebuilding from a list whose
duplicate is followed by a fresh name replaces the descriptor list but
does *not* rebuild the name set from the list's names — `"b"` is a name
of the list yet missing from the resulting set (the loop threw before
reaching it). -/
theorem registerSettingExtengionsForTest_replace_counterexample :
    "b" ∈ ([⟨"a", none, none⟩, ⟨"a", none, none⟩, ⟨"b", none, none⟩]
        : List SettingRegistration).map SettingRegistration.settingName ∧
    "b" ∉ (registerSettingExtengionsForTest ⟨[], []⟩
        [⟨"a", none, none⟩, ⟨"a", none, none⟩, ⟨"b", none, none⟩]
        true).state.settingNameSet := by
  decide

/-- C5 (amended): on a non-empty registry without `force`,
`registerSettingExtengionsForTest` is a no-op; when the registry is empty
or `force` is set, the descriptor list is replaced by exactly the supplied
list, and — provided the supplied names are pairwise distinct — the call
does not throw and the name set becomes exactly the supplied list's names
in order. -/
theorem registerSettingExtengionsForTest_replace_spec (st : RegistryState)
    (settings : List SettingRegistration) (forceReset : Bool) :
    (st.registeredSettings ≠ [] ∧ forceReset = false →
      registerSettingExtengionsForTest st settings forceReset
        = { thrown := none, state := st }) ∧
    (st.registeredSettings = [] ∨ forceReset = true →
      (registerSettingExtengionsForTest st settings forceReset).state.registeredSettings
        = settings ∧
      ((settings.map SettingRegistration.settingName).Nodup →
        registerSettingExtengionsForTest st settings forceReset
          = { thrown := none,
              state := ⟨settings, settings.map SettingRegistration.settingName⟩ })) := by
  constructor
  · rintro ⟨hne, hf⟩
    unfold registerSettingExtengionsForTest
    split
    · rename_i htrue
      exfalso
      rw [hf] at htrue
      simp at htrue
      exact hne htrue
    · rfl
  · intro hgo
    unfold registerSettingExtengionsForTest
    split
    · refine ⟨rfl, ?_⟩
      intro hnodup
      have hbuild := rebuildNameSet_nodup settings [] hnodup
        (by intro n _ hmem; simp at hmem)
      rw [hbuild]
      simp
    · rename_i hfalse
      exfalso
      apply hfalse
      rcases hgo with h | h <;> simp [h]

/-- Witness for C5 (amended): the no-op branch on a non-empty registry and
the replacement branch under `force` at concrete inputs. -/
theorem registerSettingExtengionsForTest_replace_spec_witness :
    (registerSettingExtengionsForTest ⟨[⟨"a", none, none⟩], ["a"]⟩
        [⟨"b", none, none⟩] false
      = { thrown := none, state := ⟨[⟨"a", none, none⟩], ["a"]⟩ }) ∧
    ((registerSettingExtengionsForTest ⟨[⟨"a", none, none⟩], ["a"]⟩
        [⟨"b", none, none⟩] true).state.registeredSettings = [⟨"b", none, none⟩] ∧
      registerSettingExtengionsForTest ⟨[⟨"a", none, none⟩], ["a"]⟩
          [⟨"b", none, none⟩] true
        = { thrown := none, state := ⟨[⟨"b", none, none⟩], ["b"]⟩ }) := by
  have h := registerSettingExtengionsForTest_replace_spec
    ⟨[⟨"a", none, none⟩], ["a"]⟩ [⟨"b", none, none⟩]
  have h1 := (h false).1 ⟨by decide, rfl⟩
  have h2 := (h true).2 (Or.inr rfl)
  exact ⟨h1, h2.1, h2.2 (by decide)⟩

/-- One successful registry operation preserves the registry invariant. -/
theorem applyRegistryOp_invariant (st : RegistryState) (op : RegistryOp)
    (hinv : RegistryInvariant st) (hok : (applyRegistryOp st op).thrown = none) :
    RegistryInvariant (applyRegistryOp st op).state := by
  obtain ⟨hnodup, hiff⟩ := hinv
  cases op with
  | register r =>
    by_cases hc : r.settingName ∈ st.settingNameSet
    · exfalso
      simp [applyRegistryOp, registerSettingExtension, hc] at hok
    · have hstep : registerSettingExtension st r =
          { thrown := none,
            state := ⟨st.registeredSettings ++ [r],
              st.settingNameSet ++ [r.settingName]⟩ } := by
        simp [registerSettingExtension, setAdd, hc]
      simp only [applyRegistryOp, hstep]
      have hnmem : r.settingName ∉
          st.registeredSettings.map SettingRegistration.settingName := by
        intro hmem
        exact hc ((hiff r.settingName).mpr hmem)
      constructor
      · rw [List.map_append]
        refine List.nodup_append.mpr ⟨hnodup, by simp, ?_⟩
        intro a ha hb
        simp only [List.map_cons, List.map_nil, List.mem_singleton] at hb
        exact hnmem (hb ▸ ha)
      · intro n
        rw [List.map_append]
        simp only [List.mem_append, List.map_cons, List.map_nil,
          List.mem_singleton]
        rw [hiff n]
  | resetForTest settings force =>
    simp only [applyRegistryOp] at hok ⊢
    unfold registerSettingExtengionsForTest at hok ⊢
    split at hok
    · rename_i htrue
      rw [if_pos htrue]
      obtain ⟨hnd, hset, _⟩ := rebuildNameSet_none settings [] hok
      constructor
      · exact hnd
      · intro n
        simp only []
        rw [hset]
        simp
    · rename_i hfalse
      rw [if_neg hfalse]
      exact ⟨hnodup, hiff⟩

/-- C10: every successful run of registry operations from the initial
empty state ends in a state whose descriptor names are pairwise distinct
and whose name set holds exactly the names of the listed descriptors. -/
theorem runRegistryOps_invariant (ops : List RegistryOp) (st' : RegistryState)
    (h : runRegistryOps ⟨[], []⟩ ops = some st') : RegistryInvariant st' := by
  suffices H : ∀ (ops : List RegistryOp) (st st' : RegistryState),
      RegistryInvariant st → runRegistryOps st ops = some st' →
      RegistryInvariant st' by
    refine H ops ⟨[], []⟩ st' ⟨by simp, ?_⟩ h
    intro n
    simp
  intro ops
  induction ops with
  | nil =>
    intro st st' hinv h
    simp [runRegistryOps] at h
    rwa [← h]
  | cons op rest ih =>
    intro st st' hinv h
    simp only [runRegistryOps] at h
    cases hth : (applyRegistryOp st op).thrown with
    | some e =>
      rw [hth] at h
      simp at h
    | none =>
      rw [hth] at h
      exact ih _ _ (applyRegistryOp_invariant st op hinv hth) h

/-- Witness for C10 at a one-operation run. -/
theorem runRegistryOps_invariant_witness :
    RegistryInvariant ⟨[⟨"a", none, none⟩], ["a"]⟩ :=
  runRegistryOps_invariant [RegistryOp.register ⟨"a", none, none⟩]
    ⟨[⟨"a", none, none⟩], ["a"]⟩ rfl

/-! ## Theorems: timeline details view -/

open TimelineDetailsView

/-- Folding `closeTab` over a list of ids removes exactly those ids from
the tab strip. -/
theorem foldl_closeTab_tabs :
    ∀ (ids : List TabId) (p : TabbedPane),
      (ids.foldl TabbedPane.closeTab p).tabs
        = p.tabs.filter (fun t => decide (t ∉ ids)) := by
  intro ids
  induction ids with
  | nil => intro p; simp
  | cons a rest ih =>
    intro p
    rw [List.foldl_cons, ih]
    unfold TabbedPane.closeTab
    simp only [List.filter_filter]
    apply List.filter_congr
    intro t _
    by_cases h1 : t = a
    · simp [h1]
    · by_cases h2 : t ∈ rest <;> simp [h1, h2]

/-- Folding `closeTab` leaves the selected tab alone when it is not among
the closed ids. -/
theorem foldl_closeTab_selectedTabId :
    ∀ (ids : List TabId) (p : TabbedPane) (t : TabId),
      p.selectedTabId = some t → t ∉ ids →
      (ids.foldl TabbedPane.closeTab p).selectedTabId = some t := by
  intro ids
  induction ids with
  | nil =>
    intro p t h _
    simpa using h
  | cons a rest ih =>
    intro p t h hmem
    rw [List.foldl_cons]
    apply ih
    · unfold TabbedPane.closeTab
      simp only []
      rw [h]
      have hne : ¬ (t = a) := fun e => hmem (by simp [e])
      simp [hne]
    · intro hmem2
      exact hmem (by simp [hmem2])

theorem setContent_model (v : TimelineDetailsView) (node : DisplayedContent) :
    (_setContent v node).model = v.model := rfl

theorem setContent_track (v : TimelineDetailsView) (node : DisplayedContent) :
    (_setContent v node).track = v.track := rfl

theorem setContent_selection (v : TimelineDetailsView) (node : DisplayedContent) :
    (_setContent v node).selection = v.selection := rfl

theorem setContent_content (v : TimelineDetailsView) (node : DisplayedContent) :
    (_setContent v node).content = node := rfl

theorem setContent_lazyLayersView (v : TimelineDetailsView) (node : DisplayedContent) :
    (_setContent v node).lazyLayersView = v.lazyLayersView := rfl

theorem setContent_lazyPaintProfilerView (v : TimelineDetailsView) (node : DisplayedContent) :
    (_setContent v node).lazyPaintProfilerView = v.lazyPaintProfilerView := rfl

theorem setContent_updateCalls (v : TimelineDetailsView) (node : DisplayedContent) :
    (_setContent v node).updateCalls = v.updateCalls := rfl

theorem setContent_preferredTabId (v : TimelineDetailsView) (node : DisplayedContent) :
    (_setContent v node).preferredTabId = v.preferredTabId := rfl

theorem setContent_footer (v : TimelineDetailsView) (node : DisplayedContent) :
    (_setContent v node).footer = v.footer := rfl

theorem setContent_nextViewId (v : TimelineDetailsView) (node : DisplayedContent) :
    (_setContent v node).nextViewId = v.nextViewId := rfl

/-- `_setContent` keeps exactly the `Details` tab and the three
range-detail tabs. -/
theorem setContent_tabs (v : TimelineDetailsView) (node : DisplayedContent) :
    (_setContent v node).tabbedPane.tabs
      = v.tabbedPane.tabs.filter (fun t => t == TabId.Details || isRangeDetailTab t) := by
  unfold _setContent TabbedPane.otherTabs
  simp only []
  rw [foldl_closeTab_tabs]
  apply List.filter_congr
  intro t ht
  by_cases h1 : t = TabId.Details
  · simp [h1, List.mem_filter]
  · by_cases h2 : isRangeDetailTab t = true
    · simp [h1, h2, List.mem_filter]
    · simp [h1, h2, List.mem_filter, ht]

/-- `_setContent` never leaves a closable tab open. -/
theorem setContent_not_hasTab (v : TimelineDetailsView) (node : DisplayedContent)
    (t : TabId) (h : (t == TabId.Details || isRangeDetailTab t) = false) :
    (_setContent v node).tabbedPane.hasTab t = false := by
  unfold TabbedPane.hasTab
  rw [setContent_tabs]
  simp only [List.contains, List.elem_eq_mem, decide_eq_false_iff_not]
  intro hmem
  rw [List.mem_filter] at hmem
  rw [h] at hmem
  exact Bool.false_ne_true hmem.2

/-- `_setContent` keeps the selection on a `Details`/range-detail tab. -/
theorem setContent_selectedTabId (v : TimelineDetailsView) (node : DisplayedContent)
    (t : TabId) (h : v.tabbedPane.selectedTabId = some t)
    (ht : (t == TabId.Details || isRangeDetailTab t) = true) :
    (_setContent v node).tabbedPane.selectedTabId = some t := by
  unfold _setContent TabbedPane.otherTabs
  simp only []
  apply foldl_closeTab_selectedTabId _ _ _ h
  intro hmem
  simp only [List.mem_filter] at hmem
  rcases Bool.or_eq_true_iff.mp ht with h1 | h1
  · rw [h1] at hmem
    simp at hmem
  · rw [h1] at hmem
    simp at hmem

/-- `_updateContents` can only change the `updateCalls` log. -/
theorem updateContents_shape (v v' : TimelineDetailsView)
    (h : _updateContents v = Except.ok v') :
    v' = { v with updateCalls := v'.updateCalls } := by
  unfold _updateContents getModel at h
  split at h
  · cases h
    rfl
  · split at h
    · split at h
      · simp at h
      · cases h
        rfl
    · cases h
      rfl

/-- When a range-detail tab is selected and a model is present,
`_updateContents` logs exactly one `updateContents` call on that tab,
with the stored selection, or with the model window's range when no
selection is stored. -/
theorem updateContents_logs (v : TimelineDetailsView) (m : PerformanceModel) (tid : TabId)
    (hm : v.model = some m) (hsel : v.tabbedPane.selectedTabId = some tid)
    (ht : isRangeDetailTab tid = true) :
    _updateContents v = Except.ok { v with updateCalls := v.updateCalls ++
      [(tid, match v.selection with
             | some s => s
             | none => TimelineSelection.range m.window.left m.window.right)] } := by
  unfold _updateContents getModel
  rw [hsel, hm]
  simp [ht]

/-- When the selected tab has no range-detail view, `_updateContents`
does nothing. -/
theorem updateContents_skips (v : TimelineDetailsView)
    (h : ∀ tid, v.tabbedPane.selectedTabId = some tid → isRangeDetailTab tid = false) :
    _updateContents v = Except.ok v := by
  unfold _updateContents
  cases hsel : v.tabbedPane.selectedTabId with
  | none => rfl
  | some tid => simp [h tid hsel]

/-- `_updateContents` succeeds whenever a model is present. -/
theorem updateContents_ok (v : TimelineDetailsView) (m : PerformanceModel)
    (hm : v.model = some m) :
    ∃ v', _updateContents v = Except.ok v' := by
  cases hx : v.tabbedPane.selectedTabId with
  | none =>
    refine ⟨v, updateContents_skips v ?_⟩
    intro tid h
    rw [hx] at h
    cases h
  | some tid =>
    by_cases ht : isRangeDetailTab tid = true
    · exact ⟨_, updateContents_logs v m tid hm hx ht⟩
    · refine ⟨v, updateContents_skips v ?_⟩
      intro tid2 h2
      rw [hx] at h2
      cases h2
      simpa using ht

/-- The state produced by `_updateContentsFromWindow`: the call succeeds,
only the displayed content and the call log can change, and with both a
model and a track bound the content becomes the range statistics for the
model's window. -/
theorem updateContentsFromWindow_spec (v : TimelineDetailsView) :
    ∃ v', _updateContentsFromWindow v = Except.ok v' ∧
      v'.selection = v.selection ∧
      v'.model = v.model ∧
      v'.track = v.track ∧
      v'.lazyLayersView = v.lazyLayersView ∧
      v'.lazyPaintProfilerView = v.lazyPaintProfilerView ∧
      v'.footer = v.footer ∧
      v'.nextViewId = v.nextViewId ∧
      v'.preferredTabId = v.preferredTabId ∧
      (∀ m t, v.model = some m → v.track = some t →
        v'.content = DisplayedContent.rangeStats m.window.left m.window.right) := by
  cases hm : v.model with
  | none =>
    refine ⟨_setContent v DisplayedContent.emptyDiv,
      ?_, rfl, hm, rfl, rfl, rfl, rfl, rfl, rfl, ?_⟩
    · unfold _updateContentsFromWindow
      rw [hm]
    · intro m t hmm _
      exact Option.noConfusion hmm
  | some m =>
    cases htr : v.track with
    | none =>
      obtain ⟨w, hw⟩ := updateContents_ok v m hm
      have hs := updateContents_shape _ _ hw
      refine ⟨w, ?_, ?_, ?_, ?_, ?_, ?_, ?_, ?_, ?_, ?_⟩
      · unfold _updateContentsFromWindow
        rw [hm]
        unfold _updateSelectedRangeStats
        rw [hm, htr]
        exact hw
      · rw [hs]
      · rw [hs]
        exact hm
      · rw [hs]
        exact htr
      · rw [hs]
      · rw [hs]
      · rw [hs]
      · rw [hs]
      · rw [hs]
      · intro m2 t2 _ htt2
        exact Option.noConfusion htt2
    | some t =>
      obtain ⟨w, hw⟩ := updateContents_ok
        (_setContent v (DisplayedContent.rangeStats m.window.left m.window.right)) m hm
      have hs := updateContents_shape _ _ hw
      refine ⟨w, ?_, ?_, ?_, ?_, ?_, ?_, ?_, ?_, ?_, ?_⟩
      · unfold _updateContentsFromWindow
        rw [hm]
        unfold _updateSelectedRangeStats
        rw [hm, htr]
        exact hw
      · rw [hs]
        exact setContent_selection v (DisplayedContent.rangeStats m.window.left m.window.right)
      · rw [hs]
        exact hm
      · rw [hs]
        exact htr
      · rw [hs]
        exact setContent_lazyLayersView v (DisplayedContent.rangeStats m.window.left m.window.right)
      · rw [hs]
        exact setContent_lazyPaintProfilerView v (DisplayedContent.rangeStats m.window.left m.window.right)
      · rw [hs]
        exact setContent_footer v (DisplayedContent.rangeStats m.window.left m.window.right)
      · rw [hs]
        exact setContent_nextViewId v (DisplayedContent.rangeStats m.window.left m.window.right)
      · rw [hs]
        exact setContent_preferredTabId v (DisplayedContent.rangeStats m.window.left m.window.right)
      · intro m2 t2 hm2 _
        injection hm2 with hmm2
        subst hmm2
        rw [hs]
        exact setContent_content v (DisplayedContent.rangeStats m.window.left m.window.right)

/-- The state produced by `setSelection(null)`: the call succeeds with no
pending build, the stored selection is cleared, every field except the
displayed content, the tab strip and the call log is preserved, and with
both a model and a track bound the content becomes the range statistics
for the model's window. -/
theorem setSelection_none_spec (v : TimelineDetailsView) :
    ∃ v', setSelection v none = Except.ok (v', []) ∧
      v'.selection = none ∧
      v'.model = v.model ∧
      v'.track = v.track ∧
      v'.lazyLayersView = v.lazyLayersView ∧
      v'.lazyPaintProfilerView = v.lazyPaintProfilerView ∧
      v'.footer = v.footer ∧
      v'.nextViewId = v.nextViewId ∧
      v'.preferredTabId = v.preferredTabId ∧
      (∀ m t, v.model = some m → v.track = some t →
        v'.content = DisplayedContent.rangeStats m.window.left m.window.right) := by
  obtain ⟨w, hw, hsel, hmod, htrk, hlv, hpv, hf, hn, hp, hc⟩ :=
    updateContentsFromWindow_spec { v with selection := none }
  refine ⟨w, ?_, hsel, hmod, htrk, hlv, hpv, hf, hn, hp, fun m t hm ht => hc m t hm ht⟩
  unfold setSelection
  dsimp only
  rw [hw]

/-- `setModel` always succeeds; the result stores the model and track,
clears the selection and both lazy view caches, and rebuilds the footer:
empty without a model, otherwise the total-blocking-time message. -/
theorem setModel_spec (v : TimelineDetailsView) (model : Option PerformanceModel)
    (track : Option Track) :
    ∃ v', setModel v model track = Except.ok v' ∧
      v'.model = model ∧
      v'.track = track ∧
      v'.selection = none ∧
      v'.lazyLayersView = none ∧
      v'.lazyPaintProfilerView = none ∧
      v'.footer = (match model with
        | some m => some (totalBlockingTimeMessage (toFixed2 m.totalBlockingTime.time)
            (if m.totalBlockingTime.estimated then " (" ++ UIStrings.estimated ++ ")" else ""))
        | none => none) := by
  cases model with
  | none =>
    obtain ⟨w, hw, hsel, hmod, htrk, hlv, hpv, hf, hn, hp, hc⟩ :=
      setSelection_none_spec { v with
        model := none, track := track,
        tabbedPane := v.tabbedPane.closeTabs [TabId.PaintProfiler, TabId.LayerViewer],
        lazyPaintProfilerView := none, lazyLayersView := none }
    refine ⟨{ w with footer := none }, ?_, hmod, htrk, hsel, hlv, hpv, rfl⟩
    unfold setModel
    dsimp only
    rw [hw]
  | some m =>
    obtain ⟨w, hw, hsel, hmod, htrk, hlv, hpv, hf, hn, hp, hc⟩ :=
      setSelection_none_spec { v with
        model := some m, track := track,
        tabbedPane := v.tabbedPane.closeTabs [TabId.PaintProfiler, TabId.LayerViewer],
        lazyPaintProfilerView := none, lazyLayersView := none }
    refine ⟨{ w with footer := some (totalBlockingTimeMessage (toFixed2 m.totalBlockingTime.time) (if m.totalBlockingTime.estimated then " (" ++ UIStrings.estimated ++ ")" else "")) }, ?_, hmod, htrk, hsel, hlv, hpv, rfl⟩
    unfold setModel
    dsimp only
    rw [hw]

/-- C8: with a model and a track bound, `setSelection(null)` succeeds,
clears the stored selection, and renders range statistics for exactly the
start/end pair of the model's current window. -/
theorem setSelection_null_reverts_to_window (v : TimelineDetailsView)
    (m : PerformanceModel) (t : Track)
    (hm : v.model = some m) (ht : v.track = some t) :
    ∃ v', setSelection v none = Except.ok (v', []) ∧
      v'.selection = none ∧
      v'.content = DisplayedContent.rangeStats m.window.left m.window.right := by
  obtain ⟨v', h1, h2, _, _, _, _, _, _, _, h10⟩ := setSelection_none_spec v
  exact ⟨v', h1, h2, h10 m t hm ht⟩

/-- Witness for C8 at a concrete controller state with a bound model and
track and a prior range selection stored. -/
theorem setSelection_null_reverts_to_window_witness :
    ∃ v', setSelection { initialView with
        model := some ⟨⟨0, 10⟩, ⟨120, false⟩, 0⟩,
        track := some ⟨[]⟩,
        selection := some (TimelineSelection.range 3 4) } none
      = Except.ok (v', []) ∧
      v'.selection = none ∧
      v'.content = DisplayedContent.rangeStats (0 : ℚ) (10 : ℚ) :=
  setSelection_null_reverts_to_window
    { initialView with
      model := some ⟨⟨0, 10⟩, ⟨120, false⟩, 0⟩,
      track := some ⟨[]⟩,
      selection := some (TimelineSelection.range 3 4) }
    ⟨⟨0, 10⟩, ⟨120, false⟩, 0⟩ ⟨[]⟩ rfl rfl

/-- C9: for every non-null model, `setModel` succeeds and sets the footer
to the fixed prefix, the blocking time rendered with exactly two decimal
places, the `ms` suffix, and — exactly when the metric is flagged as an
estimate — the ` (estimated)` marker; at time 120 this reads
`Total blocking time: 120.00ms`, resp.
`Total blocking time: 120.00ms (estimated)`. -/
theorem setModel_footer_spec (v : TimelineDetailsView) (m : PerformanceModel)
    (track : Option Track) :
    Except.map TimelineDetailsView.footer (setModel v (some m) track)
      = Except.ok (some ("Total blocking time: " ++ toFixed2 m.totalBlockingTime.time
          ++ "ms" ++ (if m.totalBlockingTime.estimated = true then " (estimated)" else ""))) ∧
    toFixed2 120 = "120.00" ∧
    "Total blocking time: " ++ toFixed2 120 ++ "ms" ++ "" = "Total blocking time: 120.00ms" ∧
    "Total blocking time: " ++ toFixed2 120 ++ "ms" ++ " (estimated)"
      = "Total blocking time: 120.00ms (estimated)" := by
  refine ⟨?_, rfl, rfl, rfl⟩
  obtain ⟨v', hv, _, _, _, _, _, hfoot⟩ := setModel_spec v (some m) track
  rw [hv]
  simp only [Except.map]
  rw [hfoot]
  have hx : " (" ++ "estimated" ++ ")" = " (estimated)" := rfl
  cases he : m.totalBlockingTime.estimated <;>
    simp [he, totalBlockingTimeMessage, UIStrings.estimated, hx]

/-- `_appendTab` puts the new tab at the end of the strip, whether or not
it then selects it. -/
theorem appendTab_tabs (v : TimelineDetailsView) (id : TabId) :
    (_appendTab v id).tabbedPane.tabs = v.tabbedPane.tabs ++ [id] := by
  unfold _appendTab TabbedPane.selectTab TabbedPane.appendTab
  dsimp only
  split
  · split
    · rfl
    · rfl
  · rfl

theorem appendTab_model (v : TimelineDetailsView) (id : TabId) :
    (_appendTab v id).model = v.model := by
  unfold _appendTab
  dsimp only
  split
  · rfl
  · rfl

theorem appendTab_track (v : TimelineDetailsView) (id : TabId) :
    (_appendTab v id).track = v.track := by
  unfold _appendTab
  dsimp only
  split
  · rfl
  · rfl

theorem appendTab_selection (v : TimelineDetailsView) (id : TabId) :
    (_appendTab v id).selection = v.selection := by
  unfold _appendTab
  dsimp only
  split
  · rfl
  · rfl

theorem appendTab_updateCalls (v : TimelineDetailsView) (id : TabId) :
    (_appendTab v id).updateCalls = v.updateCalls := by
  unfold _appendTab
  dsimp only
  split
  · rfl
  · rfl

theorem appendTab_lazyLayersView (v : TimelineDetailsView) (id : TabId) :
    (_appendTab v id).lazyLayersView = v.lazyLayersView := by
  unfold _appendTab
  dsimp only
  split
  · rfl
  · rfl

theorem appendTab_lazyPaintProfilerView (v : TimelineDetailsView) (id : TabId) :
    (_appendTab v id).lazyPaintProfilerView = v.lazyPaintProfilerView := by
  unfold _appendTab
  dsimp only
  split
  · rfl
  · rfl

theorem appendTab_content (v : TimelineDetailsView) (id : TabId) :
    (_appendTab v id).content = v.content := by
  unfold _appendTab
  dsimp only
  split
  · rfl
  · rfl

theorem appendTab_footer (v : TimelineDetailsView) (id : TabId) :
    (_appendTab v id).footer = v.footer := by
  unfold _appendTab
  dsimp only
  split
  · rfl
  · rfl

theorem appendTab_nextViewId (v : TimelineDetailsView) (id : TabId) :
    (_appendTab v id).nextViewId = v.nextViewId := by
  unfold _appendTab
  dsimp only
  split
  · rfl
  · rfl

theorem appendTab_preferredTabId (v : TimelineDetailsView) (id : TabId) :
    (_appendTab v id).preferredTabId = v.preferredTabId := by
  unfold _appendTab
  dsimp only
  split
  · rfl
  · rfl

/-- When the preferred tab is the currently selected tab, `_appendTab`
performs no tab switch. -/
theorem appendTab_noswitch (v : TimelineDetailsView) (id : TabId) (t : TabId)
    (hp : v.preferredTabId = some t) (hs : v.tabbedPane.selectedTabId = some t) :
    _appendTab v id = { v with tabbedPane := v.tabbedPane.appendTab id } := by
  have heq : v.preferredTabId = (v.tabbedPane.appendTab id).selectedTabId := by
    unfold TabbedPane.appendTab
    dsimp only
    rw [hp, hs]
  unfold _appendTab
  dsimp only
  rw [if_neg (fun hne => hne heq)]

/-- When the preferred tab is the currently selected tab, the selected tab
survives `_appendTab`. -/
theorem appendTab_selected_of_pref (v : TimelineDetailsView) (id : TabId) (t : TabId)
    (hp : v.preferredTabId = some t) (hs : v.tabbedPane.selectedTabId = some t) :
    (_appendTab v id).tabbedPane.selectedTabId = some t := by
  rw [appendTab_noswitch v id t hp hs]
  exact hs

/-- `_layersView` with a model present: it yields a cached or fresh view,
caches it, and touches nothing else; when a view was already cached, the
state is untouched and the same instance is returned. -/
theorem layersView_spec (v : TimelineDetailsView) (m : PerformanceModel)
    (hm : v.model = some m) :
    ∃ lv v', _layersView v = Except.ok (lv, v') ∧
      v'.lazyLayersView = some lv ∧
      (v.lazyLayersView.isSome = true → v' = v ∧ some lv = v.lazyLayersView) ∧
      v'.tabbedPane = v.tabbedPane ∧
      v'.model = v.model ∧
      v'.track = v.track ∧
      v'.selection = v.selection ∧
      v'.updateCalls = v.updateCalls ∧
      v'.preferredTabId = v.preferredTabId ∧
      v'.lazyPaintProfilerView = v.lazyPaintProfilerView ∧
      v'.content = v.content ∧
      v'.footer = v.footer := by
  cases hlz : v.lazyLayersView with
  | some lv =>
    refine ⟨lv, v, ?_, hlz, fun _ => ⟨rfl, rfl⟩, rfl, rfl, rfl, rfl, rfl, rfl, rfl, rfl, rfl⟩
    unfold _layersView
    rw [hlz]
  | none =>
    refine ⟨⟨v.nextViewId⟩,
      { v with lazyLayersView := some ⟨v.nextViewId⟩, nextViewId := v.nextViewId + 1 },
      ?_, rfl, ?_, rfl, rfl, rfl, rfl, rfl, rfl, rfl, rfl, rfl⟩
    · unfold _layersView getModel
      rw [hlz, hm]
    · intro hs
      simp at hs

/-- The frame branch of `setSelection` for a frame carrying a layer tree:
the synchronous dispatch renders the frame details, closes the closable
tabs, materialises the lazy layers view, appends the `LayerViewer` tab,
and finishes through `_updateContents` on a state `Y` with the listed
properties. -/
theorem setSelection_frame_eq (v : TimelineDetailsView) (f : TimelineFrame)
    (m : PerformanceModel) (tree : LayerTree)
    (hm : v.model = some m) (hlt : f.layerTree = some tree) :
    ∃ Y : TimelineDetailsView,
      setSelection v (some (TimelineSelection.frame f))
        = (match _updateContents Y with
           | Except.error e => Except.error e
           | Except.ok w => Except.ok (w, ([] : List PendingTask))) ∧
      Y.model = v.model ∧
      Y.track = v.track ∧
      Y.selection = some (TimelineSelection.frame f) ∧
      Y.updateCalls = v.updateCalls ∧
      Y.lazyLayersView.isSome = true ∧
      (v.lazyLayersView.isSome = true → Y.lazyLayersView = v.lazyLayersView) ∧
      Y.tabbedPane.tabs
        = (v.tabbedPane.tabs.filter (fun t => t == TabId.Details || isRangeDetailTab t))
            ++ [TabId.LayerViewer] ∧
      (∀ tid, v.tabbedPane.selectedTabId = some tid →
        (tid == TabId.Details || isRangeDetailTab tid) = true →
        v.preferredTabId = some tid →
        Y.tabbedPane.selectedTabId = some tid) := by
  obtain ⟨lv, X', hlveq, hX'lazy, hX'pres, hX'pane, hX'model, hX'track, hX'sel, hX'calls,
    hX'pref, hX'ppv, hX'content, hX'footer⟩ :=
    layersView_spec (_setContent
      { v with model := some m, selection := some (TimelineSelection.frame f) }
      (DisplayedContent.frameDetails f)) m rfl
  refine ⟨_appendTab X' TabId.LayerViewer, ?_, ?_, ?_, ?_, ?_, ?_, ?_, ?_, ?_⟩
  · unfold setSelection getModel
    dsimp only
    rw [hm, hlt]
    dsimp only
    rw [hlveq]
    dsimp only
    rw [hX'pane]
    rw [setContent_not_hasTab
      { v with model := some m, selection := some (TimelineSelection.frame f) }
      (DisplayedContent.frameDetails f) TabId.LayerViewer (by decide)]
    rw [if_neg Bool.false_ne_true]
  · exact ((appendTab_model X' TabId.LayerViewer).trans hX'model).trans
      ((setContent_model _ _).trans hm.symm)
  · exact ((appendTab_track X' TabId.LayerViewer).trans hX'track).trans
      (setContent_track _ _)
  · exact ((appendTab_selection X' TabId.LayerViewer).trans hX'sel).trans
      (setContent_selection _ _)
  · exact ((appendTab_updateCalls X' TabId.LayerViewer).trans hX'calls).trans
      (setContent_updateCalls _ _)
  · rw [appendTab_lazyLayersView, hX'lazy]
    rfl
  · intro hs
    obtain ⟨hXX, hlvv⟩ := hX'pres hs
    exact ((appendTab_lazyLayersView X' TabId.LayerViewer).trans hX'lazy).trans hlvv
  · rw [appendTab_tabs, hX'pane, setContent_tabs]
  · intro tid h1 h2 h3
    refine appendTab_selected_of_pref X' TabId.LayerViewer tid ?_ ?_
    · exact hX'pref.trans ((setContent_preferredTabId _ _).trans h3)
    · rw [hX'pane]
      exact setContent_selectedTabId _ _ tid h1 h2

/-- C3 counterexample: with the default `Details` summary tab selected
(and a model and track bound), dispatching a range selection invokes no
tab's `updateContents` at all — the call log stays empty even though a
tab is currently selected. -/
theorem setSelection_details_tab_not_refreshed :
    Except.map (fun r => (r.1.updateCalls, r.1.tabbedPane.selectedTabId))
        (setSelection { initialView with
          model := some ⟨⟨0, 10⟩, ⟨120, false⟩, 0⟩,
          track := some ⟨[]⟩ }
          (some (TimelineSelection.range 1 2)))
      = Except.ok ([], some TabId.Details) := by
  rfl

/-- C3 (amended): the final refresh of `setSelection` invokes
`updateContents` only on the three range-detail tabs.  When the selected
tab is one of `BottomUp`, `CallTree` or `EventLog` and is also the
preferred tab (so the dispatch cannot switch tabs), every `setSelection`
call logs exactly one `updateContents` on it, with the active selection,
or with a range selection built from the model's window when the
selection is null; a selected tab without a range-detail view (such as
the default `Details` summary tab) is not refreshed. -/
theorem setSelection_refreshes_selected_range_detail_tab
    (v : TimelineDetailsView) (sel : Option TimelineSelection)
    (m : PerformanceModel) (tid : TabId)
    (hm : v.model = some m)
    (hsel : v.tabbedPane.selectedTabId = some tid)
    (htid : isRangeDetailTab tid = true)
    (hpref : v.preferredTabId = some tid) :
    Except.map (fun r => r.1.updateCalls) (setSelection v sel)
      = Except.ok (v.updateCalls ++
          [(tid, match sel with
                 | some s => s
                 | none => TimelineSelection.range m.window.left m.window.right)]) := by
  have hkeep : (tid == TabId.Details || isRangeDetailTab tid) = true := by
    rw [htid]
    simp
  cases sel with
  | none =>
    unfold setSelection _updateContentsFromWindow _updateSelectedRangeStats
    dsimp only
    rw [hm]
    cases htr : v.track with
    | none =>
      dsimp only
      rw [updateContents_logs { v with model := some m, track := none, selection := none } m tid rfl hsel htid]
      rfl
    | some t =>
      dsimp only
      rw [updateContents_logs (_setContent { v with model := some m, track := some t, selection := none } (DisplayedContent.rangeStats m.window.left m.window.right)) m tid rfl (setContent_selectedTabId _ _ tid hsel hkeep) htid]
      rfl
  | some s =>
    cases s with
    | traceEvent e =>
      unfold setSelection getModel
      dsimp only
      rw [hm]
      dsimp only
      rw [updateContents_logs { v with model := some m, selection := some (TimelineSelection.traceEvent e) } m tid rfl hsel htid]
      rfl
    | networkRequest r =>
      unfold setSelection getModel
      dsimp only
      rw [hm]
      dsimp only
      rw [updateContents_logs { v with model := some m, selection := some (TimelineSelection.networkRequest r) } m tid rfl hsel htid]
      rfl
    | range s e =>
      unfold setSelection _updateSelectedRangeStats
      dsimp only
      rw [hm]
      cases htr : v.track with
      | none =>
        dsimp only
        rw [updateContents_logs { v with model := some m, track := none, selection := some (TimelineSelection.range s e) } m tid rfl hsel htid]
        rfl
      | some t =>
        dsimp only
        rw [updateContents_logs (_setContent { v with model := some m, track := some t, selection := some (TimelineSelection.range s e) } (DisplayedContent.rangeStats s e)) m tid rfl (setContent_selectedTabId _ _ tid hsel hkeep) htid]
        rfl
    | frame f =>
      cases hlt : f.layerTree with
      | none =>
        unfold setSelection getModel
        dsimp only
        rw [hm, hlt]
        dsimp only
        rw [updateContents_logs (_setContent { v with model := some m, selection := some (TimelineSelection.frame f) } (DisplayedContent.frameDetails f)) m tid rfl (setContent_selectedTabId _ _ tid hsel hkeep) htid]
        rfl
      | some tree =>
        obtain ⟨Y, hYeq, hYm, hYtr, hYsel, hYcalls, hYsome, hYpres, hYtabs, hYselected⟩ :=
          setSelection_frame_eq v f m tree hm hlt
        rw [hYeq, updateContents_logs Y m tid (hYm.trans hm)
          (hYselected tid hsel hkeep hpref) htid]
        dsimp only [Except.map]
        rw [hYcalls, hYsel]

/-- Witness for C3 (amended): a concrete state with the `BottomUp` tab
selected and preferred; a range selection logs one refresh on it. -/
theorem setSelection_refreshes_selected_range_detail_tab_witness :
    Except.map (fun r => r.1.updateCalls)
        (setSelection { initialView with
          model := some ⟨⟨0, 10⟩, ⟨120, false⟩, 0⟩,
          track := some ⟨[]⟩,
          tabbedPane := ⟨[TabId.Details, TabId.BottomUp, TabId.CallTree, TabId.EventLog],
            some TabId.BottomUp⟩,
          preferredTabId := some TabId.BottomUp }
          (some (TimelineSelection.range 1 2)))
      = Except.ok [(TabId.BottomUp, TimelineSelection.range 1 2)] :=
  setSelection_refreshes_selected_range_detail_tab
    { initialView with
      model := some ⟨⟨0, 10⟩, ⟨120, false⟩, 0⟩,
      track := some ⟨[]⟩,
      tabbedPane := ⟨[TabId.Details, TabId.BottomUp, TabId.CallTree, TabId.EventLog],
        some TabId.BottomUp⟩,
      preferredTabId := some TabId.BottomUp }
    (some (TimelineSelection.range 1 2))
    ⟨⟨0, 10⟩, ⟨120, false⟩, 0⟩ TabId.BottomUp rfl rfl rfl rfl

/-- Counting `LayerViewer` after `_setContent`-style filtering plus a
single re-append always gives exactly one copy. -/
theorem count_layerViewer_filter_append (l : List TabId) :
    ((l.filter (fun t => t == TabId.Details || isRangeDetailTab t))
        ++ [TabId.LayerViewer]).count TabId.LayerViewer = 1 := by
  rw [List.count_append]
  have hzero : (l.filter (fun t => t == TabId.Details || isRangeDetailTab t)).count
      TabId.LayerViewer = 0 := by
    rw [List.count_eq_zero]
    intro hmem
    rw [List.mem_filter] at hmem
    exact absurd hmem.2 (by decide)
  rw [hzero]
  rfl

/-- C6: selecting a frame that carries a layer tree opens the
`LayerViewer` tab so that exactly one such tab is open, and materialises
the cached layers view; selecting the same or another such frame again
still leaves exactly one `LayerViewer` tab and reuses the same cached
view instance; the next `setModel` call nulls the cache. -/
theorem frame_selection_layer_viewer (v : TimelineDetailsView)
    (f g : TimelineFrame) (m : PerformanceModel) (treeF treeG : LayerTree)
    (hm : v.model = some m) (hf : f.layerTree = some treeF)
    (hg : g.layerTree = some treeG)
    (v1 : TimelineDetailsView) (p1 : List PendingTask)
    (h1 : setSelection v (some (TimelineSelection.frame f)) = Except.ok (v1, p1)) :
    v1.tabbedPane.tabs.count TabId.LayerViewer = 1 ∧
    v1.lazyLayersView.isSome = true ∧
    (∀ v2 p2, setSelection v1 (some (TimelineSelection.frame g)) = Except.ok (v2, p2) →
      v2.tabbedPane.tabs.count TabId.LayerViewer = 1 ∧
      v2.lazyLayersView = v1.lazyLayersView) ∧
    (∀ mo tr v3, setModel v1 mo tr = Except.ok v3 → v3.lazyLayersView = none) := by
  obtain ⟨Y, hYeq, hYm, hYtr, hYsel, hYcalls, hYsome, hYpres, hYtabs, hYselected⟩ :=
    setSelection_frame_eq v f m treeF hm hf
  obtain ⟨w, hw⟩ := updateContents_ok Y m (hYm.trans hm)
  have hws := updateContents_shape Y w hw
  rw [hYeq, hw] at h1
  dsimp only at h1
  rw [Except.ok.injEq, Prod.mk.injEq] at h1
  obtain ⟨hwv, hpl⟩ := h1
  subst hwv
  have hw_tabs : w.tabbedPane.tabs
      = (v.tabbedPane.tabs.filter (fun t => t == TabId.Details || isRangeDetailTab t))
          ++ [TabId.LayerViewer] := by
    rw [hws]
    exact hYtabs
  have hw_lazy : w.lazyLayersView.isSome = true := by
    rw [hws]
    exact hYsome
  have hw_model : w.model = some m := by
    rw [hws]
    exact hYm.trans hm
  refine ⟨?_, hw_lazy, ?_, ?_⟩
  · rw [hw_tabs]
    exact count_layerViewer_filter_append _
  · intro v2 p2 h2
    obtain ⟨Z, hZeq, hZm, hZtr, hZsel, hZcalls, hZsome, hZpres, hZtabs, hZselected⟩ :=
      setSelection_frame_eq w g m treeG hw_model hg
    obtain ⟨u, hu⟩ := updateContents_ok Z m (hZm.trans hw_model)
    have hus := updateContents_shape Z u hu
    rw [hZeq, hu] at h2
    dsimp only at h2
    rw [Except.ok.injEq, Prod.mk.injEq] at h2
    obtain ⟨huv, hpl2⟩ := h2
    subst huv
    constructor
    · rw [hus, hZtabs]
      exact count_layerViewer_filter_append _
    · have hZlv := hZpres hw_lazy
      rw [hus]
      exact hZlv
  · intro mo tr v3 h3
    obtain ⟨x, hx, _, _, _, hxlazy, _, _⟩ := setModel_spec w mo tr
    rw [hx, Except.ok.injEq] at h3
    rw [← h3]
    exact hxlazy

/-- Witness for C6: a concrete frame selection from the initial view with
a bound model; the second frame carries a different layer tree. -/
theorem frame_selection_layer_viewer_witness :
    ({ tabbedPane := ⟨[TabId.Details, TabId.BottomUp, TabId.CallTree, TabId.EventLog, TabId.LayerViewer], some TabId.Details⟩, preferredTabId := some TabId.Details, model := some ⟨⟨0, 10⟩, ⟨120, false⟩, 0⟩, track := none, selection := some (TimelineSelection.frame ⟨some ⟨0⟩⟩), lazyLayersView := some ⟨0⟩, lazyPaintProfilerView := none, content := DisplayedContent.frameDetails ⟨some ⟨0⟩⟩, footer := none, updateCalls := [], nextViewId := 1 } : TimelineDetailsView).tabbedPane.tabs.count TabId.LayerViewer = 1 ∧
    ({ tabbedPane := ⟨[TabId.Details, TabId.BottomUp, TabId.CallTree, TabId.EventLog, TabId.LayerViewer], some TabId.Details⟩, preferredTabId := some TabId.Details, model := some ⟨⟨0, 10⟩, ⟨120, false⟩, 0⟩, track := none, selection := some (TimelineSelection.frame ⟨some ⟨0⟩⟩), lazyLayersView := some ⟨0⟩, lazyPaintProfilerView := none, content := DisplayedContent.frameDetails ⟨some ⟨0⟩⟩, footer := none, updateCalls := [], nextViewId := 1 } : TimelineDetailsView).lazyLayersView.isSome = true ∧
    (∀ v2 p2, setSelection ({ tabbedPane := ⟨[TabId.Details, TabId.BottomUp, TabId.CallTree, TabId.EventLog, TabId.LayerViewer], some TabId.Details⟩, preferredTabId := some TabId.Details, model := some ⟨⟨0, 10⟩, ⟨120, false⟩, 0⟩, track := none, selection := some (TimelineSelection.frame ⟨some ⟨0⟩⟩), lazyLayersView := some ⟨0⟩, lazyPaintProfilerView := none, content := DisplayedContent.frameDetails ⟨some ⟨0⟩⟩, footer := none, updateCalls := [], nextViewId := 1 } : TimelineDetailsView) (some (TimelineSelection.frame ⟨some ⟨1⟩⟩)) = Except.ok (v2, p2) →
      v2.tabbedPane.tabs.count TabId.LayerViewer = 1 ∧
      v2.lazyLayersView = ({ tabbedPane := ⟨[TabId.Details, TabId.BottomUp, TabId.CallTree, TabId.EventLog, TabId.LayerViewer], some TabId.Details⟩, preferredTabId := some TabId.Details, model := some ⟨⟨0, 10⟩, ⟨120, false⟩, 0⟩, track := none, selection := some (TimelineSelection.frame ⟨some ⟨0⟩⟩), lazyLayersView := some ⟨0⟩, lazyPaintProfilerView := none, content := DisplayedContent.frameDetails ⟨some ⟨0⟩⟩, footer := none, updateCalls := [], nextViewId := 1 } : TimelineDetailsView).lazyLayersView) ∧
    (∀ mo tr v3, setModel ({ tabbedPane := ⟨[TabId.Details, TabId.BottomUp, TabId.CallTree, TabId.EventLog, TabId.LayerViewer], some TabId.Details⟩, preferredTabId := some TabId.Details, model := some ⟨⟨0, 10⟩, ⟨120, false⟩, 0⟩, track := none, selection := some (TimelineSelection.frame ⟨some ⟨0⟩⟩), lazyLayersView := some ⟨0⟩, lazyPaintProfilerView := none, content := DisplayedContent.frameDetails ⟨some ⟨0⟩⟩, footer := none, updateCalls := [], nextViewId := 1 } : TimelineDetailsView) mo tr = Except.ok v3 → v3.lazyLayersView = none) :=
  frame_selection_layer_viewer
    { initialView with model := some ⟨⟨0, 10⟩, ⟨120, false⟩, 0⟩ }
    ⟨some ⟨0⟩⟩ ⟨some ⟨1⟩⟩ ⟨⟨0, 10⟩, ⟨120, false⟩, 0⟩ ⟨0⟩ ⟨1⟩ rfl rfl rfl
    { tabbedPane := ⟨[TabId.Details, TabId.BottomUp, TabId.CallTree, TabId.EventLog, TabId.LayerViewer], some TabId.Details⟩, preferredTabId := some TabId.Details, model := some ⟨⟨0, 10⟩, ⟨120, false⟩, 0⟩, track := none, selection := some (TimelineSelection.frame ⟨some ⟨0⟩⟩), lazyLayersView := some ⟨0⟩, lazyPaintProfilerView := none, content := DisplayedContent.frameDetails ⟨some ⟨0⟩⟩, footer := none, updateCalls := [], nextViewId := 1 } [] rfl

/-- C7: for a `Paint` (or `RasterTask`) trace event, the detail-build
continuation opens the paint-profiler tab only if a paint-profiler model
instance exists; with no such instance the continuation still returns
normally, no tab is added (the surviving tabs are among the previous
ones), and the `PaintProfiler` tab is not open afterwards. -/
theorem paint_profiler_tab_requires_model (env : PaintProfilerEnv)
    (v : TimelineDetailsView) (e : TraceEvent)
    (he : e.name = RecordType.Paint ∨ e.name = RecordType.RasterTask) :
    (∀ v', _appendDetailsTabsForTraceEventAndShowDetails env v e = Except.ok v' →
      TabId.PaintProfiler ∈ v'.tabbedPane.tabs → env.paintProfilerModel.isSome = true) ∧
    (env.paintProfilerModel = none →
      _appendDetailsTabsForTraceEventAndShowDetails env v e
        = Except.ok (_setContent v (DisplayedContent.traceEventDetails e)) ∧
      TabId.PaintProfiler ∉
        (_setContent v (DisplayedContent.traceEventDetails e)).tabbedPane.tabs ∧
      ∀ t, t ∈ (_setContent v (DisplayedContent.traceEventDetails e)).tabbedPane.tabs →
        t ∈ v.tabbedPane.tabs) := by
  have hname : (e.name == RecordType.Paint || e.name == RecordType.RasterTask) = true := by
    rcases he with h | h <;> simp [h]
  have hnotin : TabId.PaintProfiler ∉
      (_setContent v (DisplayedContent.traceEventDetails e)).tabbedPane.tabs := by
    rw [setContent_tabs]
    intro hmem
    rw [List.mem_filter] at hmem
    exact absurd hmem.2 (by decide)
  have hsub : ∀ t, t ∈ (_setContent v (DisplayedContent.traceEventDetails e)).tabbedPane.tabs →
      t ∈ v.tabbedPane.tabs := by
    intro t ht
    rw [setContent_tabs] at ht
    exact (List.mem_filter.mp ht).1
  have hnoneeq : env.paintProfilerModel = none →
      _appendDetailsTabsForTraceEventAndShowDetails env v e
        = Except.ok (_setContent v (DisplayedContent.traceEventDetails e)) := by
    intro hpm
    unfold _appendDetailsTabsForTraceEventAndShowDetails _showEventInPaintProfiler
    rw [if_pos hname, hpm]
  refine ⟨?_, fun hpm => ⟨hnoneeq hpm, hnotin, hsub⟩⟩
  intro v' heq hmem
  cases hpm : env.paintProfilerModel with
  | some pm => rfl
  | none =>
    rw [hnoneeq hpm, Except.ok.injEq] at heq
    rw [← heq] at hmem
    exact absurd hmem hnotin

/-- Witness for C7: a `Paint` event dispatched with no paint-profiler
model instance in the environment. -/
theorem paint_profiler_tab_requires_model_witness :
    _appendDetailsTabsForTraceEventAndShowDetails ⟨none, fun _ => false⟩ initialView ⟨"Paint"⟩
      = Except.ok (_setContent initialView (DisplayedContent.traceEventDetails ⟨"Paint"⟩)) ∧
    TabId.PaintProfiler ∉
      (_setContent initialView
        (DisplayedContent.traceEventDetails ⟨"Paint"⟩)).tabbedPane.tabs ∧
    ∀ t, t ∈ (_setContent initialView
        (DisplayedContent.traceEventDetails ⟨"Paint"⟩)).tabbedPane.tabs →
      t ∈ initialView.tabbedPane.tabs :=
  (paint_profiler_tab_requires_model ⟨none, fun _ => false⟩ initialView ⟨"Paint"⟩
    (Or.inl rfl)).2 rfl

/-- The numerator/denominator form of the rounding used by `toFixed2`
agrees with the textbook ECMA-262 rounding `⌊100 x + 1 / 2⌋` (integer
nearest to `100 x`, ties to the larger). -/
theorem jsRoundHundredths_eq_floor (x : ℚ) :
    jsRoundHundredths x = ⌊x * 100 + 1 / 2⌋ := by
  have h : x * 100 + 1 / 2 =
      ((200 * x.num + (x.den : ℤ) : ℤ) : ℚ) / (((2 * x.den : ℕ) : ℕ) : ℚ) := by
    have hden : ((x.den : ℤ) : ℚ) ≠ 0 := by
      exact_mod_cast x.den_nz
    conv_lhs => rw [← Rat.num_div_den x]
    push_cast
    field_simp
    ring
  rw [h, Rat.floor_intCast_div_natCast]
  unfold jsRoundHundredths
  push_cast
  ring_nf
